import Mathlib

/-!
Shallow embedding of the reconciliation core of the yandex-cloud Ansible
collection (plugins/modules/compute_disk.py, compute_instance.py and
plugins/module_utils/common.py, sdk.py).

Modelling conventions, stated once here:
* Python dictionaries returned by MessageToDict are embedded as structures
  holding exactly the fields the reconciliation logic reads; the remaining
  server-assigned fields are elided because no branch of the code inspects
  them.
* The locator result dict is embedded as an Option: a located resource dict
  is never empty (it carries server fields), so the literal comparison
  disk == dict() in the source corresponds to Option.none here.
* AnsibleModule.exit_json and fail_json terminate the module process, so the
  reconciler is embedded as a function returning a single terminal
  ModuleExit together with the list of RPC calls it issued, in order.
* The remote API is embedded as an environment record supplying the List
  response, the Operation returned by each mutating RPC, the sequence of
  operation-status records returned by successive operation Get polls, and
  the resource returned by Get.  Transport failures are not modelled: no
  claim depends on them.
-/

/-- Python single-quote character, built numerically. -/
def squote : String := String.singleton (Char.ofNat 39)

/-- Models Python repr of a plain string (as interpolated by the %r format
specifier): the string wrapped in single quotes.  Escaping of special
characters inside the string is elided; no claim depends on it. -/
def pyRepr (s : String) : String := squote ++ s ++ squote

/-- Boolean lexicographic order on (key, value) pairs, as used by Python
sorted() on dict items (tuples compare by first component, then second). -/
def pairLe (a b : String × String) : Bool :=
  decide (a.1 < b.1) || (decide (a.1 = b.1) && decide (a.2 ≤ b.2))

/-- Insert one pair into a pairLe-sorted list, keeping it sorted. -/
def insLabel (x : String × String) : List (String × String) → List (String × String)
  | [] => [x]
  | y :: ys => if pairLe x y then x :: y :: ys else y :: insLabel x ys

/-- Key-sorted form of a label mapping: models Python
dict(sorted(labels.items())).  Insertion sort by pairLe. -/
def canonLabels : List (String × String) → List (String × String)
  | [] => []
  | x :: xs => insLabel x (canonLabels xs)

theorem pairLe_total (a b : String × String) : pairLe a b = true ∨ pairLe b a = true := by
  simp only [pairLe, Bool.or_eq_true, Bool.and_eq_true, decide_eq_true_eq]
  rcases lt_trichotomy a.1 b.1 with h | h | h
  · exact Or.inl (Or.inl h)
  · rcases le_total a.2 b.2 with h2 | h2
    · exact Or.inl (Or.inr ⟨h, h2⟩)
    · exact Or.inr (Or.inr ⟨h.symm, h2⟩)
  · exact Or.inr (Or.inl h)

theorem pairLe_antisymm (a b : String × String)
    (hab : pairLe a b = true) (hba : pairLe b a = true) : a = b := by
  simp only [pairLe, Bool.or_eq_true, Bool.and_eq_true, decide_eq_true_eq] at hab hba
  rcases hab with h1 | ⟨he1, hle1⟩
  · rcases hba with h2 | ⟨he2, _⟩
    · exact absurd h2 (lt_asymm h1)
    · exact absurd h1 (by simp [he2])
  · rcases hba with h2 | ⟨he2, hle2⟩
    · exact absurd h2 (by simp [he1])
    · exact Prod.ext he1 (le_antisymm hle1 hle2)

theorem pairLe_trans (a b c : String × String)
    (hab : pairLe a b = true) (hbc : pairLe b c = true) : pairLe a c = true := by
  simp only [pairLe, Bool.or_eq_true, Bool.and_eq_true, decide_eq_true_eq] at hab hbc ⊢
  rcases hab with h1 | ⟨he1, hle1⟩
  · rcases hbc with h2 | ⟨he2, _⟩
    · exact Or.inl (lt_trans h1 h2)
    · exact Or.inl (he2 ▸ h1)
  · rcases hbc with h2 | ⟨he2, hle2⟩
    · exact Or.inl (he1 ▸ h2)
    · exact Or.inr ⟨he1.trans he2, le_trans hle1 hle2⟩

theorem insLabel_perm (x : String × String) (l : List (String × String)) :
    List.Perm (insLabel x l) (x :: l) := by
  induction l with
  | nil => simp [insLabel]
  | cons y ys ih =>
    by_cases h : pairLe x y = true
    · simp [insLabel, h]
    · simp only [insLabel, h, if_false]
      exact (ih.cons y).trans (List.Perm.swap x y ys)

theorem canonLabels_perm (l : List (String × String)) :
    List.Perm (canonLabels l) l := by
  induction l with
  | nil => simp [canonLabels]
  | cons x xs ih => exact (insLabel_perm x (canonLabels xs)).trans (ih.cons x)

/-- The Prop form of pairLe, used with the Mathlib sortedness lemmas. -/
def PairLeP (a b : String × String) : Prop := pairLe a b = true

instance : IsAntisymm (String × String) PairLeP := ⟨pairLe_antisymm⟩

theorem insLabel_sorted (x : String × String) (l : List (String × String))
    (h : l.Sorted PairLeP) : (insLabel x l).Sorted PairLeP := by
  induction l with
  | nil => simp [insLabel, List.sorted_singleton]
  | cons y ys ih =>
    rw [List.sorted_cons] at h
    by_cases hxy : pairLe x y = true
    · rw [insLabel, if_pos hxy, List.sorted_cons]
      refine ⟨?_, List.sorted_cons.mpr h⟩
      intro b hb
      rcases List.mem_cons.mp hb with rfl | hb
      · exact hxy
      · exact pairLe_trans x y b hxy (h.1 b hb)
    · rw [insLabel, if_neg hxy, List.sorted_cons]
      refine ⟨?_, ih h.2⟩
      intro b hb
      rcases List.mem_cons.mp ((insLabel_perm x ys).mem_iff.mp hb) with rfl | hb
      · rcases pairLe_total b y with hby | hyb
        · exact absurd hby hxy
        · exact hyb
      · exact h.1 b hb

theorem canonLabels_sorted (l : List (String × String)) :
    (canonLabels l).Sorted PairLeP := by
  induction l with
  | nil => simp [canonLabels]
  | cons x xs ih => exact insLabel_sorted x (canonLabels xs) ih

/-- Key sorting is insertion-order independent: label maps that are
permutations of one another have the same canonical form. -/
theorem canonLabels_eq_of_perm (l l2 : List (String × String))
    (h : List.Perm l l2) : canonLabels l = canonLabels l2 :=
  List.eq_of_perm_of_sorted
    ((canonLabels_perm l).trans (h.trans (canonLabels_perm l2).symm))
    (canonLabels_sorted l) (canonLabels_sorted l2)

/-- One physical output line of
json.dumps({size, description, labels}, indent=2, sort_keys=True) as
produced in the update branch of compute_disk.main and split by
splitlines(keepends=True).  The lines are embedded algebraically, one
constructor per line shape; Python json string escaping renders distinct
shapes and distinct payloads to distinct bytes, which the embedding
reflects through constructor and argument injectivity. -/
inductive JLine
  | lbrace
  | descLine (s : String)
  | labelsEmpty
  | labelsOpen
  | labelLine (k v : String) (comma : Bool)
  | labelsClose
  | sizeLine (s : String)
  | rbrace
deriving DecidableEq

/-- Lines of the JSON rendering of a (already key-sorted) label object:
one line per pair, a trailing comma on every line but the last. -/
def labelLines : List (String × String) → List JLine
  | [] => []
  | [kv] => [JLine.labelLine kv.1 kv.2 false]
  | kv :: rest => JLine.labelLine kv.1 kv.2 true :: labelLines rest

/-- The lines rendering the labels entry of the dumped object: an empty
object is rendered inline on one line, a non-empty one as an open line,
member lines and a close line. -/
def labelsBlock (c : List (String × String)) : List JLine :=
  match c with
  | [] => [JLine.labelsEmpty]
  | _ => JLine.labelsOpen :: (labelLines c ++ [JLine.labelsClose])

/-- Line list of json.dumps({size: size, description: description,
labels: dict(sorted(labels.items()))}, indent=2, sort_keys=True): keys in
sorted order (description, labels, size), labels key-sorted. -/
def dumpsDiskLines (size description : String) (labels : List (String × String)) :
    List JLine :=
  JLine.lbrace :: JLine.descLine description ::
    (labelsBlock (canonLabels labels) ++ [JLine.sizeLine size, JLine.rbrace])

theorem labelLines_append_inj (xs : List (String × String)) :
    ∀ (ys : List (String × String)) (t₁ t₂ : List JLine),
    labelLines xs ++ (JLine.labelsClose :: t₁) = labelLines ys ++ (JLine.labelsClose :: t₂) →
    xs = ys ∧ t₁ = t₂ := by
  induction xs with
  | nil =>
    intro ys t₁ t₂ h
    cases ys with
    | nil => simpa [labelLines] using h
    | cons b bs =>
      cases bs with
      | nil => simp [labelLines] at h
      | cons c cs => simp [labelLines] at h
  | cons a as ih =>
    intro ys t₁ t₂ h
    cases as with
    | nil =>
      cases ys with
      | nil => simp [labelLines] at h
      | cons b bs =>
        cases bs with
        | nil =>
          simp only [labelLines, List.cons_append, List.nil_append,
            List.cons.injEq, JLine.labelLine.injEq] at h
          obtain ⟨⟨hk, hv, _⟩, ht⟩ := h
          refine ⟨?_, by simpa using ht⟩
          simp [Prod.ext hk hv]
        | cons c cs => simp [labelLines] at h
    | cons a2 as2 =>
      cases ys with
      | nil => simp [labelLines] at h
      | cons b bs =>
        cases bs with
        | nil => simp [labelLines] at h
        | cons c cs =>
          simp only [labelLines, List.cons_append, List.cons.injEq,
            JLine.labelLine.injEq] at h
          obtain ⟨⟨hk, hv, _⟩, ht⟩ := h
          obtain ⟨h1, h2⟩ := ih (c :: cs) t₁ t₂ ht
          exact ⟨by rw [Prod.ext hk hv, h1], h2⟩

theorem labelsBlock_append_inj (c₁ c₂ : List (String × String)) (t₁ t₂ : List JLine)
    (h : labelsBlock c₁ ++ t₁ = labelsBlock c₂ ++ t₂) : c₁ = c₂ ∧ t₁ = t₂ := by
  cases c₁ with
  | nil =>
    cases c₂ with
    | nil => simpa [labelsBlock] using h
    | cons b bs => simp [labelsBlock, labelLines] at h
  | cons a as =>
    cases c₂ with
    | nil => simp [labelsBlock, labelLines] at h
    | cons b bs =>
      simp only [labelsBlock, List.cons_append, List.cons.injEq, List.append_assoc,
        List.singleton_append] at h
      exact labelLines_append_inj (a :: as) (b :: bs) t₁ t₂ h.2

/-- The serialization is injective up to the canonical label form: equal
line lists come from equal size strings, description strings and
key-sorted label lists (Python json.dumps string escaping makes the
corresponding byte strings equal exactly in this case). -/
theorem dumpsDiskLines_inj (s₁ s₂ d₁ d₂ : String) (l₁ l₂ : List (String × String))
    (h : dumpsDiskLines s₁ d₁ l₁ = dumpsDiskLines s₂ d₂ l₂) :
    s₁ = s₂ ∧ d₁ = d₂ ∧ canonLabels l₁ = canonLabels l₂ := by
  simp only [dumpsDiskLines, List.cons.injEq, JLine.descLine.injEq] at h
  obtain ⟨hd, ht⟩ := h.2
  obtain ⟨hc, hrest⟩ := labelsBlock_append_inj _ _ _ _ ht
  simp only [List.cons.injEq, JLine.sizeLine.injEq] at hrest
  exact ⟨hrest.1, hd, hc⟩

/-- One output line of the rendered diff, as produced by difflib.ndiff:
an unchanged context line, a removed line or an added line. -/
inductive DLine (α : Type)
  | ctx (a : α)
  | minus (a : α)
  | plus (a : α)
deriving DecidableEq

/-- True for removed and added lines, false for context lines. -/
def isChange {α : Type} : DLine α → Bool
  | .ctx _ => false
  | _ => true

/-- Models difflib.ndiff at the granularity the reconciliation logic
depends on: two equal line sequences yield only context lines, two
different sequences yield at least one removed or added line.  The model
keeps the common leading run as context and emits the first divergent
tails as removals followed by additions; the finer hunk structure and the
intraline hint lines of difflib are not modelled, as no behavior of the
module depends on them. -/
def ndiffModel {α : Type} [DecidableEq α] : List α → List α → List (DLine α)
  | [], [] => []
  | [], b :: bs => (b :: bs).map DLine.plus
  | a :: as, [] => (a :: as).map DLine.minus
  | a :: as, b :: bs =>
    if a = b then DLine.ctx a :: ndiffModel as bs
    else ((a :: as).map DLine.minus) ++ ((b :: bs).map DLine.plus)

theorem ndiffModel_all_ctx_iff {α : Type} [DecidableEq α] (as : List α) :
    ∀ bs : List α,
    ((ndiffModel as bs).all fun x => !(isChange x)) = true ↔ as = bs := by
  induction as with
  | nil =>
    intro bs
    cases bs with
    | nil => simp [ndiffModel]
    | cons b bs => simp [ndiffModel, isChange]
  | cons a as ih =>
    intro bs
    cases bs with
    | nil => simp [ndiffModel, isChange]
    | cons b bs =>
      by_cases hab : a = b
      · subst hab
        have hstep : ndiffModel (a :: as) (a :: bs) = DLine.ctx a :: ndiffModel as bs := by
          simp [ndiffModel]
        have hc : (!(isChange (DLine.ctx a))) = true := rfl
        rw [hstep, List.all_cons, hc, Bool.true_and, ih bs]
        simp
      · simp [ndiffModel, hab, isChange]

/-- The error payload of a terminal operation record
(operation.error.code, operation.error.message). -/
structure ErrorPayload where
  code : Int
  message : String
deriving DecidableEq

/-- One operation-status record as returned by one poll of the operation
service Get RPC, after MessageToDict.  done is checked by the source with
membership plus truthiness, error by membership only, so both are embedded
as Options. -/
structure OpRecord where
  done : Option Bool
  error : Option ErrorPayload
deriving DecidableEq

/-- Terminal outcome of the polling loop inside _wait: normal return,
an OperationError raised with the payload code and message, or (for a
status sequence that never reports done) no termination. -/
inductive WaitResult
  | ok
  | opError (code : Int) (message : String)
  | stillPolling
deriving DecidableEq

/-- The while-True body of _wait (identical in compute_disk.py and
compute_instance.py), run over the successive status records: at the first
record with done truthy, raise OperationError from a present error field
or return; otherwise keep polling. -/
def waitLoop : List OpRecord → WaitResult
  | [] => WaitResult.stillPolling
  | op :: rest =>
    if op.done = some true then
      match op.error with
      | some e => WaitResult.opError e.code e.message
      | none => WaitResult.ok
    else waitLoop rest

/-- Number of operation Get RPCs issued while polling: one per iteration
up to and including the first record with done truthy. -/
def waitSteps : List OpRecord → Nat
  | [] => 0
  | op :: rest => 1 + (if op.done = some true then 0 else waitSteps rest)

/-- Message text of the OperationError raised inside _wait. -/
def opErrorText (code : Int) (message : String) : String :=
  "unknown operation error code " ++ toString code ++ ". Error was: " ++ message

/-- Message of the fail_json call in the except clause of _wait when the
OperationError propagates there.  Both modules use this exact text (the
instance module also says disk, faithfully reproduced). -/
def waitFailMsg (name : String) (code : Int) (message : String) : String :=
  "unknown error operation disk " ++ pyRepr name ++ ". Error was: " ++
    opErrorText code message

/-- Terminal surface of one module invocation: exit_json with a changed
flag, message, optional resource payload and optional rendered diff;
fail_json with a message; or non-termination of the polling loop. -/
inductive ModuleExit (ρ : Type)
  | exitJson (changed : Bool) (msg : String) (resource : Option ρ)
      (diff : Option (List (DLine JLine)))
  | failJson (msg : String)
  | hang
deriving DecidableEq

/-- The changed flag of an exit_json terminal report, none for fail_json
or a hung call. -/
def exitChanged {ρ : Type} : ModuleExit ρ → Option Bool
  | .exitJson c _ _ _ => some c
  | _ => none

/-- An operation dict as returned by a mutating RPC: its id and the
resource id carried in its metadata (disk_id respectively instance_id). -/
structure Operation where
  id : String
  metaResourceId : String
deriving DecidableEq

/-- Target lifecycle states accepted by compute_disk. -/
inductive DiskState
  | present
  | absent
deriving DecidableEq

/-- The compute_disk module parameters after AnsibleModule parsing.
Defaults per argument_spec: description empty string, labels empty dict,
block_size 4096; type_id, zone_id, size, image_id, snapshot_id may be
absent (None).  Credential options are elided. -/
structure DiskParams where
  state : DiskState
  folder_id : String
  name : String
  description : String
  labels : List (String × String)
  type_id : Option String
  zone_id : Option String
  size : Option Int
  image_id : Option String
  snapshot_id : Option String
  block_size : Int
deriving DecidableEq

/-- Python str() of an optional int parameter: None prints as None. -/
def strOfOptInt : Option Int → String
  | none => "None"
  | some n => toString n

/-- An observed disk dict (MessageToDict of the proto message): the fields
the reconciliation logic reads.  Proto int64 size arrives as a JSON
string. -/
structure Disk where
  id : String
  name : String
  size : String
  description : String
  labels : List (String × String)
deriving DecidableEq

/-- The ListDisksRequest built by _find in compute_disk.py. -/
structure ListDisksRequest where
  folder_id : String
  filter : String
  page_size : Nat
deriving DecidableEq

/-- The list request of the disk locator: exact-name filter via %r and
page_size 1. -/
def diskListRequest (p : DiskParams) : ListDisksRequest :=
  { folder_id := p.folder_id
    filter := "name = " ++ pyRepr p.name
    page_size := 1 }

/-- The result selection of _find in compute_disk.py: the single entry of
a one-element response, the empty dict (none) for any other length. -/
def diskFind : List Disk → Option Disk
  | [d] => some d
  | _ => none

/-- The update-needed comparison of the present branch of
compute_disk.main: string inequality on size, string inequality on
description, or inequality of the key-sorted label maps. -/
def needsUpdate (p : DiskParams) (d : Disk) : Bool :=
  (d.size != strOfOptInt p.size) ||
  (d.description != p.description) ||
  (canonLabels d.labels != canonLabels p.labels)

/-- The rendered diff of the update branch: ndiff of the dumped observed
mutable fields against the dumped desired mutable fields. -/
def diskDiffLines (d : Disk) (p : DiskParams) : List (DLine JLine) :=
  ndiffModel (dumpsDiskLines d.size d.description d.labels)
    (dumpsDiskLines (strOfOptInt p.size) p.description p.labels)

/-- One RPC issued by the compute_disk module, in issue order.  The create
request payload fields beyond folder and name are elided: no claim
inspects them. -/
inductive DiskRpc
  | list (req : ListDisksRequest)
  | create (folder_id name : String)
  | update (disk_id : String)
  | delete (disk_id : String)
  | getOp (operation_id : String)
  | get (disk_id : String)
deriving DecidableEq

/-- True exactly for a resource Get RPC of the disk module. -/
def DiskRpc.isGet : DiskRpc → Bool
  | .get _ => true
  | _ => false

/-- The remote side seen by one compute_disk invocation: the List
response, the operation dicts returned by the mutating RPCs, the status
records returned by successive operation polls per operation id, and the
resource returned by Get per disk id. -/
structure DiskEnv where
  listResponse : List Disk
  createOp : Operation
  updateOp : Operation
  deleteOp : Operation
  pollSeq : String → List OpRecord
  getResult : String → Disk

/-- The operation Get RPCs issued while waiting on one operation. -/
def diskPolls (opId : String) (seq : List OpRecord) : List DiskRpc :=
  List.replicate (waitSteps seq) (DiskRpc.getOp opId)

/-- The reconciliation core of compute_disk.main after client setup:
locate, then branch on state and the located disk, returning the terminal
report and the ordered RPC trace. -/
def reconcileDisk (p : DiskParams) (env : DiskEnv) : ModuleExit Disk × List DiskRpc :=
  match p.state, diskFind env.listResponse with
  | .present, none =>
    let op := env.createOp
    let seq := env.pollSeq op.id
    let tr := DiskRpc.list (diskListRequest p) :: DiskRpc.create p.folder_id p.name ::
      diskPolls op.id seq
    match waitLoop seq with
    | .stillPolling => (ModuleExit.hang, tr)
    | .opError c m => (ModuleExit.failJson (waitFailMsg p.name c m), tr)
    | .ok =>
      (ModuleExit.exitJson true ("disk " ++ pyRepr p.name ++ " created")
        (some (env.getResult op.metaResourceId)) none,
       tr ++ [DiskRpc.get op.metaResourceId])
  | .present, some d =>
    if needsUpdate p d then
      let op := env.updateOp
      let seq := env.pollSeq op.id
      let tr := DiskRpc.list (diskListRequest p) :: DiskRpc.update d.id ::
        diskPolls op.id seq
      match waitLoop seq with
      | .stillPolling => (ModuleExit.hang, tr)
      | .opError c m => (ModuleExit.failJson (waitFailMsg p.name c m), tr)
      | .ok =>
        (ModuleExit.exitJson true ("disk " ++ pyRepr p.name ++ " updated")
          (some (env.getResult d.id)) (some (diskDiffLines d p)),
         tr ++ [DiskRpc.get d.id])
    else
      (ModuleExit.exitJson false ("disk " ++ pyRepr p.name ++ " exists and ready")
        (some d) none,
       [DiskRpc.list (diskListRequest p)])
  | .absent, none =>
    (ModuleExit.exitJson false ("disk " ++ pyRepr p.name ++ " not exists") none none,
     [DiskRpc.list (diskListRequest p)])
  | .absent, some d =>
    let op := env.deleteOp
    let seq := env.pollSeq op.id
    let tr := DiskRpc.list (diskListRequest p) :: DiskRpc.delete d.id ::
      diskPolls op.id seq
    match waitLoop seq with
    | .stillPolling => (ModuleExit.hang, tr)
    | .opError c m => (ModuleExit.failJson (waitFailMsg p.name c m), tr)
    | .ok =>
      (ModuleExit.exitJson true ("disk " ++ pyRepr p.name ++ " deleted") none none, tr)

/-- Target lifecycle states accepted by compute_instance. -/
inductive InstanceState
  | present
  | restarted
  | stopped
  | absent
deriving DecidableEq

/-- The compute_instance module parameters the reconciliation logic reads.
The create-request payload options (resources, disks, network interfaces,
metadata and so on) are elided: they only feed the create RPC body, which
no claim inspects. -/
structure InstanceParams where
  state : InstanceState
  folder_id : String
  name : String
deriving DecidableEq

/-- An observed instance dict: the fields the reconciliation logic reads.
status is the lifecycle status enum name string, for example RUNNING or
STOPPED. -/
structure Instance where
  id : String
  name : String
  status : String
deriving DecidableEq

/-- The ListInstancesRequest built by _find in compute_instance.py.  The
source sets folder_id, filter and order_by only; page_size stays at the
proto default 0. -/
structure ListInstancesRequest where
  folder_id : String
  filter : String
  order_by : String
  page_size : Nat
deriving DecidableEq

/-- The list request of the instance locator: exact-name filter via %r,
ordering by name ascending, no page size. -/
def instanceListRequest (p : InstanceParams) : ListInstancesRequest :=
  { folder_id := p.folder_id
    filter := "name = " ++ pyRepr p.name
    order_by := "name asc"
    page_size := 0 }

/-- The result selection of _find in compute_instance.py: the single entry
of a one-element response, the empty dict (none) otherwise. -/
def instanceFind : List Instance → Option Instance
  | [i] => some i
  | _ => none

/-- One RPC issued by the compute_instance module, in issue order. -/
inductive InstanceRpc
  | list (req : ListInstancesRequest)
  | create (folder_id name : String)
  | start (instance_id : String)
  | restart (instance_id : String)
  | stop (instance_id : String)
  | delete (instance_id : String)
  | getOp (operation_id : String)
  | get (instance_id : String)
deriving DecidableEq

/-- True exactly for a resource Get RPC of the instance module. -/
def InstanceRpc.isGet : InstanceRpc → Bool
  | .get _ => true
  | _ => false

/-- The remote side seen by one compute_instance invocation. -/
structure InstanceEnv where
  listResponse : List Instance
  createOp : Operation
  startOp : Operation
  restartOp : Operation
  stopOp : Operation
  deleteOp : Operation
  pollSeq : String → List OpRecord
  getResult : String → Instance

/-- The operation Get RPCs issued while waiting on one operation. -/
def instPolls (opId : String) (seq : List OpRecord) : List InstanceRpc :=
  List.replicate (waitSteps seq) (InstanceRpc.getOp opId)

/-- The reconciliation core of compute_instance.main after client setup:
locate, then branch on state and the located instance and its status,
returning the terminal report and the ordered RPC trace.  exit_json
terminates, so the conditional changed=false report of the stopped branch
returns directly and the unconditional trailing exit_json calls of the
restarted and stopped cases are reached only from the branches that fall
through them. -/
def reconcileInstance (p : InstanceParams) (env : InstanceEnv) :
    ModuleExit Instance × List InstanceRpc :=
  let lr := InstanceRpc.list (instanceListRequest p)
  match p.state, instanceFind env.listResponse with
  | .present, none =>
    let op := env.createOp
    let seq := env.pollSeq op.id
    let tr := lr :: InstanceRpc.create p.folder_id p.name :: instPolls op.id seq
    match waitLoop seq with
    | .stillPolling => (ModuleExit.hang, tr)
    | .opError c m => (ModuleExit.failJson (waitFailMsg p.name c m), tr)
    | .ok =>
      (ModuleExit.exitJson true ("instance " ++ pyRepr p.name ++ " created and running")
        (some (env.getResult op.metaResourceId)) none,
       tr ++ [InstanceRpc.get op.metaResourceId])
  | .present, some i =>
    if i.status = "STOPPED" then
      let op := env.startOp
      let seq := env.pollSeq op.id
      let tr := lr :: InstanceRpc.start i.id :: instPolls op.id seq
      match waitLoop seq with
      | .stillPolling => (ModuleExit.hang, tr)
      | .opError c m => (ModuleExit.failJson (waitFailMsg p.name c m), tr)
      | .ok =>
        (ModuleExit.exitJson true ("instance " ++ pyRepr p.name ++ " exists and running")
          (some (env.getResult i.id)) none,
         tr ++ [InstanceRpc.get i.id])
    else
      (ModuleExit.exitJson false ("instance " ++ pyRepr p.name ++ " exists and running")
        (some i) none, [lr])
  | .restarted, none =>
    (ModuleExit.failJson ("not found instance with name " ++ pyRepr p.name), [lr])
  | .restarted, some i =>
    let act := if i.status = "STOPPED" then InstanceRpc.start i.id
      else InstanceRpc.restart i.id
    let op := if i.status = "STOPPED" then env.startOp else env.restartOp
    let seq := env.pollSeq op.id
    let tr := lr :: act :: instPolls op.id seq
    match waitLoop seq with
    | .stillPolling => (ModuleExit.hang, tr)
    | .opError c m => (ModuleExit.failJson (waitFailMsg p.name c m), tr)
    | .ok =>
      (ModuleExit.exitJson true ("instance " ++ pyRepr p.name ++ " restarted")
        (some (env.getResult i.id)) none,
       tr ++ [InstanceRpc.get i.id])
  | .stopped, none =>
    (ModuleExit.failJson ("not found instance with name " ++ pyRepr p.name), [lr])
  | .stopped, some i =>
    if i.status = "STOPPED" then
      (ModuleExit.exitJson false ("instance " ++ pyRepr p.name ++ " stopped")
        (some (env.getResult i.id)) none,
       [lr, InstanceRpc.get i.id])
    else
      let op := env.stopOp
      let seq := env.pollSeq op.id
      let tr := lr :: InstanceRpc.stop i.id :: instPolls op.id seq
      match waitLoop seq with
      | .stillPolling => (ModuleExit.hang, tr)
      | .opError c m => (ModuleExit.failJson (waitFailMsg p.name c m), tr)
      | .ok =>
        (ModuleExit.exitJson true ("instance " ++ pyRepr p.name ++ " stopped")
          (some (env.getResult i.id)) none,
         tr ++ [InstanceRpc.get i.id])
  | .absent, none =>
    (ModuleExit.exitJson false ("not found instance with name " ++ pyRepr p.name)
      none none, [lr])
  | .absent, some i =>
    let op := env.deleteOp
    let seq := env.pollSeq op.id
    let tr := lr :: InstanceRpc.delete i.id :: instPolls op.id seq
    match waitLoop seq with
    | .stillPolling => (ModuleExit.hang, tr)
    | .opError c m => (ModuleExit.failJson (waitFailMsg p.name c m), tr)
    | .ok =>
      (ModuleExit.exitJson true ("instance " ++ pyRepr p.name ++ " deleted") none none, tr)

/-- Fixture: a one-record status sequence that is immediately done without
an error payload. -/
def opDone : List OpRecord := [{ done := some true, error := none }]

/-- Fixture: an observed disk matching diskParamsFixture. -/
def diskFixture : Disk :=
  { id := "d1", name := "data", size := "20000000000", description := ""
    labels := [("env", "prod")] }

/-- Fixture: desired disk state whose mutable fields match diskFixture. -/
def diskParamsFixture : DiskParams :=
  { state := DiskState.present, folder_id := "f1", name := "data", description := ""
    labels := [("env", "prod")], type_id := some "network-ssd"
    zone_id := some "ru-central1-a", size := some 20000000000
    image_id := none, snapshot_id := none, block_size := 4096 }

/-- Fixture: a remote environment whose List response is the matching
disk and whose operations complete immediately. -/
def diskEnvFixture : DiskEnv :=
  { listResponse := [diskFixture]
    createOp := { id := "op1", metaResourceId := "d1" }
    updateOp := { id := "op2", metaResourceId := "d1" }
    deleteOp := { id := "op3", metaResourceId := "d1" }
    pollSeq := fun _ => opDone
    getResult := fun _ => diskFixture }

/-- Fixture: a running observed instance named srv. -/
def instRunning : Instance := { id := "i1", name := "srv", status := "RUNNING" }

/-- Fixture: a stopped observed instance named srv. -/
def instStopped : Instance := { id := "i1", name := "srv", status := "STOPPED" }

/-- Fixture: instance module parameters over a given target state. -/
def instParams (s : InstanceState) : InstanceParams :=
  { state := s, folder_id := "f1", name := "srv" }

/-- Fixture: a remote environment for the instance module over a given
List response, completing every operation immediately. -/
def instEnv (resp : List Instance) : InstanceEnv :=
  { listResponse := resp
    createOp := { id := "op1", metaResourceId := "i1" }
    startOp := { id := "op2", metaResourceId := "i1" }
    restartOp := { id := "op3", metaResourceId := "i1" }
    stopOp := { id := "op4", metaResourceId := "i1" }
    deleteOp := { id := "op5", metaResourceId := "i1" }
    pollSeq := fun _ => opDone
    getResult := fun _ => instRunning }

/-- Claim C1: when the located disk already matches the desired mutable
fields (string-equal size and description, key-sorted-equal labels) the
present reconciliation exits changed=false returning the located disk and
issues no create or update RPC, and a second invocation against the same
List response behaves identically; likewise for an instance located with
any status other than STOPPED. -/
theorem claim_C1
    (p : DiskParams) (env env2 : DiskEnv) (d : Disk)
    (hs : p.state = DiskState.present) (hf : diskFind env.listResponse = some d)
    (hm : needsUpdate p d = false) (h2 : env2.listResponse = env.listResponse)
    (q : InstanceParams) (ienv ienv2 : InstanceEnv) (i : Instance)
    (hqs : q.state = InstanceState.present)
    (hif : instanceFind ienv.listResponse = some i)
    (hst : i.status ≠ "STOPPED") (hi2 : ienv2.listResponse = ienv.listResponse) :
    reconcileDisk p env =
      (ModuleExit.exitJson false ("disk " ++ pyRepr p.name ++ " exists and ready")
        (some d) none, [DiskRpc.list (diskListRequest p)])
    ∧ (∀ f n, DiskRpc.create f n ∉ (reconcileDisk p env).2)
    ∧ (∀ x, DiskRpc.update x ∉ (reconcileDisk p env).2)
    ∧ reconcileDisk p env2 = reconcileDisk p env
    ∧ reconcileInstance q ienv =
      (ModuleExit.exitJson false ("instance " ++ pyRepr q.name ++ " exists and running")
        (some i) none, [InstanceRpc.list (instanceListRequest q)])
    ∧ (∀ f n, InstanceRpc.create f n ∉ (reconcileInstance q ienv).2)
    ∧ reconcileInstance q ienv2 = reconcileInstance q ienv := by
  have hd : reconcileDisk p env =
      (ModuleExit.exitJson false ("disk " ++ pyRepr p.name ++ " exists and ready")
        (some d) none, [DiskRpc.list (diskListRequest p)]) := by
    simp [reconcileDisk, hs, hf, hm]
  have hd2 : reconcileDisk p env2 =
      (ModuleExit.exitJson false ("disk " ++ pyRepr p.name ++ " exists and ready")
        (some d) none, [DiskRpc.list (diskListRequest p)]) := by
    simp [reconcileDisk, hs, h2, hf, hm]
  have hi : reconcileInstance q ienv =
      (ModuleExit.exitJson false ("instance " ++ pyRepr q.name ++ " exists and running")
        (some i) none, [InstanceRpc.list (instanceListRequest q)]) := by
    simp [reconcileInstance, hqs, hif, hst]
  have hi2e : reconcileInstance q ienv2 =
      (ModuleExit.exitJson false ("instance " ++ pyRepr q.name ++ " exists and running")
        (some i) none, [InstanceRpc.list (instanceListRequest q)]) := by
    simp [reconcileInstance, hqs, hi2, hif, hst]
  refine ⟨hd, ?_, ?_, hd2.trans hd.symm, hi, ?_, hi2e.trans hi.symm⟩
  · intro f n
    rw [hd]
    simp
  · intro x
    rw [hd]
    simp
  · intro f n
    rw [hi]
    simp

/-- Witness for C1 at concrete matching inputs. -/
theorem claim_C1_witness :
    needsUpdate diskParamsFixture diskFixture = false ∧
    instRunning.status ≠ "STOPPED" ∧
    reconcileDisk diskParamsFixture diskEnvFixture =
      (ModuleExit.exitJson false ("disk " ++ pyRepr "data" ++ " exists and ready")
        (some diskFixture) none, [DiskRpc.list (diskListRequest diskParamsFixture)]) ∧
    reconcileInstance (instParams InstanceState.present) (instEnv [instRunning]) =
      (ModuleExit.exitJson false ("instance " ++ pyRepr "srv" ++ " exists and running")
        (some instRunning) none,
       [InstanceRpc.list (instanceListRequest (instParams InstanceState.present))]) := by
  have h := claim_C1 diskParamsFixture diskEnvFixture diskEnvFixture diskFixture
    rfl rfl (by decide) rfl
    (instParams InstanceState.present) (instEnv [instRunning]) (instEnv [instRunning])
    instRunning rfl rfl (by decide) rfl
  exact ⟨by decide, by decide, h.1, h.2.2.2.2.1⟩

/-- Claim C2: with a located instance whose status is STOPPED, target
restarted issues the Start RPC and no Restart RPC, and target stopped
issues no Stop RPC. -/
theorem claim_C2 (q : InstanceParams) (env : InstanceEnv) (i : Instance)
    (hf : instanceFind env.listResponse = some i) (hst : i.status = "STOPPED") :
    (q.state = InstanceState.restarted →
      InstanceRpc.start i.id ∈ (reconcileInstance q env).2 ∧
      ∀ x, InstanceRpc.restart x ∉ (reconcileInstance q env).2) ∧
    (q.state = InstanceState.stopped →
      ∀ x, InstanceRpc.stop x ∉ (reconcileInstance q env).2) := by
  constructor
  · intro hqs
    rcases hw : waitLoop (env.pollSeq env.startOp.id) with _ | ⟨c, m⟩ | _ <;>
      simp [reconcileInstance, hqs, hf, hst, hw, instPolls, List.mem_replicate]
  · intro hqs
    simp [reconcileInstance, hqs, hf, hst]

/-- Witness for C2 at a concrete stopped instance. -/
theorem claim_C2_witness :
    instStopped.status = "STOPPED" ∧
    InstanceRpc.start "i1" ∈
      (reconcileInstance (instParams InstanceState.restarted) (instEnv [instStopped])).2 ∧
    (∀ x, InstanceRpc.stop x ∉
      (reconcileInstance (instParams InstanceState.stopped) (instEnv [instStopped])).2) := by
  have h1 := claim_C2 (instParams InstanceState.restarted) (instEnv [instStopped])
    instStopped rfl rfl
  have h2 := claim_C2 (instParams InstanceState.stopped) (instEnv [instStopped])
    instStopped rfl rfl
  exact ⟨rfl, (h1.1 rfl).1, h2.2 rfl⟩

/-- Claim C3: over any status sequence whose first done record carries an
error payload, the polling loop of _wait raises OperationError with the
payload code and message; when the first done record has no error payload
it returns normally. -/
theorem claim_C3 (pre rest : List OpRecord) (op : OpRecord)
    (hpre : ∀ o ∈ pre, o.done ≠ some true) (hdone : op.done = some true) :
    (∀ c m, op.error = some { code := c, message := m } →
      waitLoop (pre ++ op :: rest) = WaitResult.opError c m) ∧
    (op.error = none → waitLoop (pre ++ op :: rest) = WaitResult.ok) := by
  induction pre with
  | nil =>
    constructor
    · intro c m he
      simp [waitLoop, hdone, he]
    · intro he
      simp [waitLoop, hdone, he]
  | cons o os ih =>
    have ho : ¬(o.done = some true) := hpre o (by simp)
    have ih2 := ih fun o2 h2 => hpre o2 (by simp [h2])
    constructor
    · intro c m he
      rw [List.cons_append]
      rw [show waitLoop (o :: (os ++ op :: rest)) = waitLoop (os ++ op :: rest) by
        simp [waitLoop, ho]]
      exact ih2.1 c m he
    · intro he
      rw [List.cons_append]
      rw [show waitLoop (o :: (os ++ op :: rest)) = waitLoop (os ++ op :: rest) by
        simp [waitLoop, ho]]
      exact ih2.2 he

/-- Fixture: a status record still pending. -/
def opPending : OpRecord := { done := some false, error := none }

/-- Fixture: a terminal status record with an error payload. -/
def opErrRecord : OpRecord :=
  { done := some true, error := some { code := 7, message := "boom" } }

/-- Witness for C3 at concrete two-poll sequences. -/
theorem claim_C3_witness :
    (∀ o ∈ [opPending], o.done ≠ some true) ∧
    waitLoop [opPending, opErrRecord] = WaitResult.opError 7 "boom" ∧
    waitLoop [opPending, { done := some true, error := none }] = WaitResult.ok := by
  have h1 := claim_C3 [opPending] [] opErrRecord (by decide) rfl
  have h2 := claim_C3 [opPending] [] { done := some true, error := none } (by decide) rfl
  exact ⟨by decide, h1.1 7 "boom" rfl, h2.2 rfl⟩

/-- Fixture: a second observed disk distinct from diskFixture. -/
def diskB : Disk :=
  { id := "d2", name := "data2", size := "1", description := "x", labels := [] }

/-- Counterexample for C4: on a two-entry list response both locators
return the absent sentinel, which is neither an error signal (the find
functions cannot signal one on a successful response) nor one of the
matches, so the behavior on more than one match is not an error or a pick
of a match. -/
theorem claim_C4_counterexample :
    diskFind [diskFixture, diskB] = none ∧
    (none : Option Disk) ≠ some diskFixture ∧
    (none : Option Disk) ≠ some diskB ∧
    instanceFind [instRunning, instStopped] = none ∧
    (none : Option Instance) ≠ some instRunning ∧
    (none : Option Instance) ≠ some instStopped := by
  refine ⟨rfl, by simp, by simp, rfl, by simp, by simp⟩

/-- Claim C4 as amended: find returns the absent sentinel on zero matches,
the single match on exactly one, and on two or more matches it again
deterministically returns the absent sentinel, the same value as for zero
matches. -/
theorem claim_C4 (resp : List Disk) (iresp : List Instance) :
    (resp = [] → diskFind resp = none) ∧
    (∀ d, resp = [d] → diskFind resp = some d) ∧
    (2 ≤ resp.length → diskFind resp = none) ∧
    (iresp = [] → instanceFind iresp = none) ∧
    (∀ i, iresp = [i] → instanceFind iresp = some i) ∧
    (2 ≤ iresp.length → instanceFind iresp = none) := by
  refine ⟨?_, ?_, ?_, ?_, ?_, ?_⟩
  · rintro rfl; rfl
  · rintro d rfl; rfl
  · intro h
    rcases resp with _ | ⟨a, _ | ⟨b, t⟩⟩
    · simp at h
    · simp at h
    · rfl
  · rintro rfl; rfl
  · rintro i rfl; rfl
  · intro h
    rcases iresp with _ | ⟨a, _ | ⟨b, t⟩⟩
    · simp at h
    · simp at h
    · rfl

/-- Witness for C4 at concrete zero-, one- and two-entry responses. -/
theorem claim_C4_witness :
    diskFind [] = none ∧ diskFind [diskFixture] = some diskFixture ∧
    diskFind [diskFixture, diskB] = none ∧
    instanceFind [] = none ∧ instanceFind [instRunning] = some instRunning ∧
    instanceFind [instRunning, instStopped] = none := by
  have h0 := claim_C4 [] ([] : List Instance)
  have h1 := claim_C4 [diskFixture] [instRunning]
  have h2 := claim_C4 [diskFixture, diskB] [instRunning, instStopped]
  exact ⟨h0.1 rfl, h1.2.1 diskFixture rfl, h2.2.2.1 (by decide),
    h0.2.2.2.1 rfl, h1.2.2.2.2.1 instRunning rfl, h2.2.2.2.2.2 (by decide)⟩

/-- Counterexample for C5: with target stopped and the located instance
already STOPPED, the invocation terminates at the conditional
changed=false exit_json; the unconditional changed=true stopped report is
not produced for that branch, contradicting the claim that both reports
are produced. -/
theorem claim_C5_counterexample :
    reconcileInstance (instParams InstanceState.stopped) (instEnv [instStopped]) =
      (ModuleExit.exitJson false ("instance " ++ pyRepr "srv" ++ " stopped")
        (some instRunning) none,
       [InstanceRpc.list (instanceListRequest (instParams InstanceState.stopped)),
        InstanceRpc.get "i1"]) ∧
    exitChanged
      (reconcileInstance (instParams InstanceState.stopped) (instEnv [instStopped])).1 ≠
      some true := by
  refine ⟨by decide, by decide⟩

/-- Claim C5 as amended: for target stopped on an already STOPPED located
instance the conditional changed=false stopped report is the sole terminal
report (exit_json terminates the call) and a Get but no Stop RPC is
issued; the unconditional changed=true stopped report is reached only from
the stop-issuing branch. -/
theorem claim_C5 (q : InstanceParams) (env : InstanceEnv) (i : Instance)
    (hs : q.state = InstanceState.stopped)
    (hf : instanceFind env.listResponse = some i) :
    (i.status = "STOPPED" →
      reconcileInstance q env =
        (ModuleExit.exitJson false ("instance " ++ pyRepr q.name ++ " stopped")
          (some (env.getResult i.id)) none,
         [InstanceRpc.list (instanceListRequest q), InstanceRpc.get i.id])) ∧
    (i.status ≠ "STOPPED" → waitLoop (env.pollSeq env.stopOp.id) = WaitResult.ok →
      (reconcileInstance q env).1 =
        ModuleExit.exitJson true ("instance " ++ pyRepr q.name ++ " stopped")
          (some (env.getResult i.id)) none) := by
  constructor
  · intro hst
    simp [reconcileInstance, hs, hf, hst]
  · intro hst hw
    simp [reconcileInstance, hs, hf, hst, hw]

/-- Witness for C5 at a stopped and at a running located instance. -/
theorem claim_C5_witness :
    reconcileInstance (instParams InstanceState.stopped) (instEnv [instStopped]) =
      (ModuleExit.exitJson false ("instance " ++ pyRepr "srv" ++ " stopped")
        (some instRunning) none,
       [InstanceRpc.list (instanceListRequest (instParams InstanceState.stopped)),
        InstanceRpc.get "i1"]) ∧
    (reconcileInstance (instParams InstanceState.stopped) (instEnv [instRunning])).1 =
      ModuleExit.exitJson true ("instance " ++ pyRepr "srv" ++ " stopped")
        (some instRunning) none := by
  have h1 := claim_C5 (instParams InstanceState.stopped) (instEnv [instStopped])
    instStopped rfl rfl
  have h2 := claim_C5 (instParams InstanceState.stopped) (instEnv [instRunning])
    instRunning rfl rfl
  exact ⟨h1.1 rfl, h2.2 (by decide) rfl⟩

/-- Fixture: the disk parameters with target state absent. -/
def diskParamsAbsent : DiskParams := { diskParamsFixture with state := DiskState.absent }

/-- Counterexample for C6: the delete branch issues the delete RPC and
waits on the operation but never re-issues a Get, so not every mutating
branch ends in a post-operation fetch. -/
theorem claim_C6_counterexample :
    reconcileDisk diskParamsAbsent diskEnvFixture =
      (ModuleExit.exitJson true ("disk " ++ pyRepr "data" ++ " deleted") none none,
       [DiskRpc.list (diskListRequest diskParamsAbsent), DiskRpc.delete "d1",
        DiskRpc.getOp "op3"]) ∧
    ((reconcileDisk diskParamsAbsent diskEnvFixture).2.all
      fun r => !(DiskRpc.isGet r)) = true := by
  refine ⟨by decide, by decide⟩

/-- Claim C6 as amended: every mutating branch issues its RPC, then the
operation polls; on success the create, update, start, stop and restart
branches re-issue a Get by resource id, while the delete branches exit
directly after the wait without any Get. -/
theorem claim_C6
    (p : DiskParams) (env : DiskEnv) (d : Disk)
    (q : InstanceParams) (ienv : InstanceEnv) (i : Instance) :
    (p.state = DiskState.present → diskFind env.listResponse = none →
      waitLoop (env.pollSeq env.createOp.id) = WaitResult.ok →
      (reconcileDisk p env).2 =
        DiskRpc.list (diskListRequest p) :: DiskRpc.create p.folder_id p.name ::
          (diskPolls env.createOp.id (env.pollSeq env.createOp.id) ++
            [DiskRpc.get env.createOp.metaResourceId])) ∧
    (p.state = DiskState.present → diskFind env.listResponse = some d →
      needsUpdate p d = true →
      waitLoop (env.pollSeq env.updateOp.id) = WaitResult.ok →
      (reconcileDisk p env).2 =
        DiskRpc.list (diskListRequest p) :: DiskRpc.update d.id ::
          (diskPolls env.updateOp.id (env.pollSeq env.updateOp.id) ++
            [DiskRpc.get d.id])) ∧
    (p.state = DiskState.absent → diskFind env.listResponse = some d →
      waitLoop (env.pollSeq env.deleteOp.id) = WaitResult.ok →
      (reconcileDisk p env).2 =
        DiskRpc.list (diskListRequest p) :: DiskRpc.delete d.id ::
          diskPolls env.deleteOp.id (env.pollSeq env.deleteOp.id) ∧
      ((reconcileDisk p env).2.all fun r => !(DiskRpc.isGet r)) = true) ∧
    (q.state = InstanceState.present → instanceFind ienv.listResponse = none →
      waitLoop (ienv.pollSeq ienv.createOp.id) = WaitResult.ok →
      (reconcileInstance q ienv).2 =
        InstanceRpc.list (instanceListRequest q) ::
          InstanceRpc.create q.folder_id q.name ::
          (instPolls ienv.createOp.id (ienv.pollSeq ienv.createOp.id) ++
            [InstanceRpc.get ienv.createOp.metaResourceId])) ∧
    (q.state = InstanceState.present → instanceFind ienv.listResponse = some i →
      i.status = "STOPPED" →
      waitLoop (ienv.pollSeq ienv.startOp.id) = WaitResult.ok →
      (reconcileInstance q ienv).2 =
        InstanceRpc.list (instanceListRequest q) :: InstanceRpc.start i.id ::
          (instPolls ienv.startOp.id (ienv.pollSeq ienv.startOp.id) ++
            [InstanceRpc.get i.id])) ∧
    (q.state = InstanceState.restarted → instanceFind ienv.listResponse = some i →
      i.status ≠ "STOPPED" →
      waitLoop (ienv.pollSeq ienv.restartOp.id) = WaitResult.ok →
      (reconcileInstance q ienv).2 =
        InstanceRpc.list (instanceListRequest q) :: InstanceRpc.restart i.id ::
          (instPolls ienv.restartOp.id (ienv.pollSeq ienv.restartOp.id) ++
            [InstanceRpc.get i.id])) ∧
    (q.state = InstanceState.stopped → instanceFind ienv.listResponse = some i →
      i.status ≠ "STOPPED" →
      waitLoop (ienv.pollSeq ienv.stopOp.id) = WaitResult.ok →
      (reconcileInstance q ienv).2 =
        InstanceRpc.list (instanceListRequest q) :: InstanceRpc.stop i.id ::
          (instPolls ienv.stopOp.id (ienv.pollSeq ienv.stopOp.id) ++
            [InstanceRpc.get i.id])) ∧
    (q.state = InstanceState.absent → instanceFind ienv.listResponse = some i →
      waitLoop (ienv.pollSeq ienv.deleteOp.id) = WaitResult.ok →
      (reconcileInstance q ienv).2 =
        InstanceRpc.list (instanceListRequest q) :: InstanceRpc.delete i.id ::
          instPolls ienv.deleteOp.id (ienv.pollSeq ienv.deleteOp.id) ∧
      ((reconcileInstance q ienv).2.all fun r => !(InstanceRpc.isGet r)) = true) := by
  refine ⟨?_, ?_, ?_, ?_, ?_, ?_, ?_, ?_⟩
  · intro hs hf hw
    simp [reconcileDisk, hs, hf, hw]
  · intro hs hf hnu hw
    simp [reconcileDisk, hs, hf, hnu, hw]
  · intro hs hf hw
    refine ⟨by simp [reconcileDisk, hs, hf, hw], ?_⟩
    simp [reconcileDisk, hs, hf, hw, diskPolls, DiskRpc.isGet, List.all_eq_true,
      List.mem_replicate]
  · intro hs hf hw
    simp [reconcileInstance, hs, hf, hw]
  · intro hs hf hst hw
    simp [reconcileInstance, hs, hf, hst, hw]
  · intro hs hf hst hw
    simp [reconcileInstance, hs, hf, hst, hw]
  · intro hs hf hst hw
    simp [reconcileInstance, hs, hf, hst, hw]
  · intro hs hf hw
    refine ⟨by simp [reconcileInstance, hs, hf, hw], ?_⟩
    simp [reconcileInstance, hs, hf, hw, instPolls, InstanceRpc.isGet, List.all_eq_true,
      List.mem_replicate]

/-- Fixture: the disk environment with an empty List response. -/
def diskEnvEmpty : DiskEnv := { diskEnvFixture with listResponse := [] }

/-- Witness for C6 at a concrete create run and a concrete delete run. -/
theorem claim_C6_witness :
    waitLoop opDone = WaitResult.ok ∧
    (reconcileDisk diskParamsFixture diskEnvEmpty).2 =
      DiskRpc.list (diskListRequest diskParamsFixture) ::
        DiskRpc.create "f1" "data" ::
        (diskPolls "op1" opDone ++ [DiskRpc.get "d1"]) ∧
    (reconcileDisk diskParamsAbsent diskEnvFixture).2 =
      DiskRpc.list (diskListRequest diskParamsAbsent) :: DiskRpc.delete "d1" ::
        diskPolls "op3" opDone := by
  have h := claim_C6 diskParamsFixture diskEnvEmpty diskFixture
    (instParams InstanceState.present) (instEnv []) instRunning
  have h2 := claim_C6 diskParamsAbsent diskEnvFixture diskFixture
    (instParams InstanceState.present) (instEnv []) instRunning
  exact ⟨rfl, h.1 rfl rfl rfl, (h2.2.2.1 rfl rfl rfl).1⟩

/-- Claim C7: with target restarted or stopped and no located instance,
the call fails with the not-found message naming the instance; it is a
fail_json termination, not an exit_json no-op. -/
theorem claim_C7 (q : InstanceParams) (env : InstanceEnv)
    (hf : instanceFind env.listResponse = none)
    (hs : q.state = InstanceState.restarted ∨ q.state = InstanceState.stopped) :
    reconcileInstance q env =
      (ModuleExit.failJson ("not found instance with name " ++ pyRepr q.name),
       [InstanceRpc.list (instanceListRequest q)]) := by
  rcases hs with hs | hs <;> simp [reconcileInstance, hs, hf]

/-- Witness for C7 at an empty List response. -/
theorem claim_C7_witness :
    instanceFind (instEnv []).listResponse = none ∧
    reconcileInstance (instParams InstanceState.restarted) (instEnv []) =
      (ModuleExit.failJson ("not found instance with name " ++ pyRepr "srv"),
       [InstanceRpc.list (instanceListRequest (instParams InstanceState.restarted))]) ∧
    reconcileInstance (instParams InstanceState.stopped) (instEnv []) =
      (ModuleExit.failJson ("not found instance with name " ++ pyRepr "srv"),
       [InstanceRpc.list (instanceListRequest (instParams InstanceState.stopped))]) := by
  exact ⟨rfl, claim_C7 _ _ rfl (Or.inl rfl), claim_C7 _ _ rfl (Or.inr rfl)⟩

/-- The serialization reads the label list only through its key-sorted
canonical form. -/
theorem dumpsDiskLines_congr (s desc : String) (a b : List (String × String))
    (h : canonLabels a = canonLabels b) :
    dumpsDiskLines s desc a = dumpsDiskLines s desc b := by
  simp [dumpsDiskLines, h]

/-- Claim C8: the rendered diff of the disk mutable fields contains no
change lines exactly when the update-needed comparison is false, and both
the comparison and the rendered diff are invariant under reordering the
label insertions on either side, so equal field-sets always serialize to
identical diff output. -/
theorem claim_C8 (p : DiskParams) (d : Disk) (l l2 : List (String × String))
    (hperm : List.Perm l l2) :
    (((diskDiffLines d p).all fun x => !(isChange x)) = true ↔
      needsUpdate p d = false) ∧
    diskDiffLines d { p with labels := l } = diskDiffLines d { p with labels := l2 } ∧
    needsUpdate { p with labels := l } d = needsUpdate { p with labels := l2 } d ∧
    diskDiffLines { d with labels := l } p = diskDiffLines { d with labels := l2 } p ∧
    needsUpdate p { d with labels := l } = needsUpdate p { d with labels := l2 } := by
  have hcan := canonLabels_eq_of_perm l l2 hperm
  refine ⟨?_, ?_, ?_, ?_, ?_⟩
  · rw [diskDiffLines, ndiffModel_all_ctx_iff]
    constructor
    · intro h
      obtain ⟨hsz, hdesc, hlab⟩ := dumpsDiskLines_inj _ _ _ _ _ _ h
      simp [needsUpdate, hsz, hdesc, hlab]
    · intro h
      simp only [needsUpdate, Bool.or_eq_false_iff, bne_eq_false_iff_eq] at h
      obtain ⟨⟨hsz, hdesc⟩, hlab⟩ := h
      rw [hsz, hdesc]
      exact dumpsDiskLines_congr _ _ _ _ hlab
  · exact congrArg (ndiffModel (dumpsDiskLines d.size d.description d.labels))
      (dumpsDiskLines_congr (strOfOptInt p.size) p.description l l2 hcan)
  · exact congrArg
      (fun c => (d.size != strOfOptInt p.size) || (d.description != p.description) ||
        (canonLabels d.labels != c)) hcan
  · exact congrArg
      (fun ls => ndiffModel ls
        (dumpsDiskLines (strOfOptInt p.size) p.description p.labels))
      (dumpsDiskLines_congr d.size d.description l l2 hcan)
  · exact congrArg
      (fun c => (d.size != strOfOptInt p.size) || (d.description != p.description) ||
        (c != canonLabels p.labels)) hcan

/-- Witness for C8 at a concrete matching pair and a concrete label
permutation. -/
theorem claim_C8_witness :
    List.Perm [("b", "2"), ("a", "1")] [("a", "1"), ("b", "2")] ∧
    (((diskDiffLines diskFixture diskParamsFixture).all fun x => !(isChange x)) = true ↔
      needsUpdate diskParamsFixture diskFixture = false) ∧
    diskDiffLines diskFixture { diskParamsFixture with labels := [("b", "2"), ("a", "1")] } =
      diskDiffLines diskFixture
        { diskParamsFixture with labels := [("a", "1"), ("b", "2")] } := by
  have h := claim_C8 diskParamsFixture diskFixture
    [("b", "2"), ("a", "1")] [("a", "1"), ("b", "2")] (by decide)
  exact ⟨by decide, h.1, h.2.1⟩

/-- Counterexample for C9: the instance locator request does not set page
size 1; the field keeps the proto default 0. -/
theorem claim_C9_counterexample :
    (instanceListRequest (instParams InstanceState.present)).page_size ≠ 1 := by
  decide

/-- Claim C9 as amended: every reconciliation starts with the locator list
RPC; the disk request is constrained by the exact-name filter and page
size 1 within the folder, while the instance request uses the same
exact-name filter within the folder but sets order_by name asc and leaves
page size at the proto default 0. -/
theorem claim_C9 (p : DiskParams) (env : DiskEnv)
    (q : InstanceParams) (ienv : InstanceEnv) :
    diskListRequest p =
      { folder_id := p.folder_id, filter := "name = " ++ pyRepr p.name
        page_size := 1 } ∧
    instanceListRequest q =
      { folder_id := q.folder_id, filter := "name = " ++ pyRepr q.name
        order_by := "name asc", page_size := 0 } ∧
    (reconcileDisk p env).2.head? = some (DiskRpc.list (diskListRequest p)) ∧
    (reconcileInstance q ienv).2.head? =
      some (InstanceRpc.list (instanceListRequest q)) := by
  refine ⟨rfl, rfl, ?_, ?_⟩
  · cases hs : p.state with
    | present =>
      rcases hf : diskFind env.listResponse with _ | d
      · rcases hw : waitLoop (env.pollSeq env.createOp.id) with _ | ⟨c, m⟩ | _ <;>
          simp [reconcileDisk, hs, hf, hw]
      · by_cases hnu : needsUpdate p d
        · rcases hw : waitLoop (env.pollSeq env.updateOp.id) with _ | ⟨c, m⟩ | _ <;>
            simp [reconcileDisk, hs, hf, hnu, hw]
        · simp [reconcileDisk, hs, hf, hnu]
    | absent =>
      rcases hf : diskFind env.listResponse with _ | d
      · simp [reconcileDisk, hs, hf]
      · rcases hw : waitLoop (env.pollSeq env.deleteOp.id) with _ | ⟨c, m⟩ | _ <;>
          simp [reconcileDisk, hs, hf, hw]
  · cases hs : q.state with
    | present =>
      rcases hf : instanceFind ienv.listResponse with _ | i
      · rcases hw : waitLoop (ienv.pollSeq ienv.createOp.id) with _ | ⟨c, m⟩ | _ <;>
          simp [reconcileInstance, hs, hf, hw]
      · by_cases hst : i.status = "STOPPED"
        · rcases hw : waitLoop (ienv.pollSeq ienv.startOp.id) with _ | ⟨c, m⟩ | _ <;>
            simp [reconcileInstance, hs, hf, hst, hw]
        · simp [reconcileInstance, hs, hf, hst]
    | restarted =>
      rcases hf : instanceFind ienv.listResponse with _ | i
      · simp [reconcileInstance, hs, hf]
      · by_cases hst : i.status = "STOPPED"
        · rcases hw : waitLoop (ienv.pollSeq ienv.startOp.id) with _ | ⟨c, m⟩ | _ <;>
            simp [reconcileInstance, hs, hf, hst, hw]
        · rcases hw : waitLoop (ienv.pollSeq ienv.restartOp.id) with _ | ⟨c, m⟩ | _ <;>
            simp [reconcileInstance, hs, hf, hst, hw]
    | stopped =>
      rcases hf : instanceFind ienv.listResponse with _ | i
      · simp [reconcileInstance, hs, hf]
      · by_cases hst : i.status = "STOPPED"
        · simp [reconcileInstance, hs, hf, hst]
        · rcases hw : waitLoop (ienv.pollSeq ienv.stopOp.id) with _ | ⟨c, m⟩ | _ <;>
            simp [reconcileInstance, hs, hf, hst, hw]
    | absent =>
      rcases hf : instanceFind ienv.listResponse with _ | i
      · simp [reconcileInstance, hs, hf]
      · rcases hw : waitLoop (ienv.pollSeq ienv.deleteOp.id) with _ | ⟨c, m⟩ | _ <;>
          simp [reconcileInstance, hs, hf, hw]

/-- Claim C10: a list response with two or more entries makes both
locators return the same absent sentinel as a zero-entry response, and
under target present the reconciler then proceeds to issue a create
RPC. -/
theorem claim_C10 (resp : List Disk) (iresp : List Instance)
    (h2 : 2 ≤ resp.length) (hi2 : 2 ≤ iresp.length)
    (p : DiskParams) (env : DiskEnv)
    (hs : p.state = DiskState.present) (he : env.listResponse = resp)
    (q : InstanceParams) (ienv : InstanceEnv)
    (hqs : q.state = InstanceState.present) (hie : ienv.listResponse = iresp) :
    diskFind resp = none ∧ diskFind [] = none ∧
    instanceFind iresp = none ∧ instanceFind [] = none ∧
    DiskRpc.create p.folder_id p.name ∈ (reconcileDisk p env).2 ∧
    InstanceRpc.create q.folder_id q.name ∈ (reconcileInstance q ienv).2 := by
  have hdf : diskFind resp = none := by
    rcases resp with _ | ⟨a, _ | ⟨b, t⟩⟩
    · simp at h2
    · simp at h2
    · rfl
  have hif : instanceFind iresp = none := by
    rcases iresp with _ | ⟨a, _ | ⟨b, t⟩⟩
    · simp at hi2
    · simp at hi2
    · rfl
  have hfe : diskFind env.listResponse = none := by rw [he]; exact hdf
  have hife : instanceFind ienv.listResponse = none := by rw [hie]; exact hif
  refine ⟨hdf, rfl, hif, rfl, ?_, ?_⟩
  · rcases hw : waitLoop (env.pollSeq env.createOp.id) with _ | ⟨c, m⟩ | _ <;>
      simp [reconcileDisk, hs, hfe, hw]
  · rcases hw : waitLoop (ienv.pollSeq ienv.createOp.id) with _ | ⟨c, m⟩ | _ <;>
      simp [reconcileInstance, hqs, hife, hw]

/-- Fixture: the disk environment with a two-entry List response. -/
def diskEnvTwo : DiskEnv := { diskEnvFixture with listResponse := [diskFixture, diskB] }

/-- Witness for C10 at concrete two-entry responses. -/
theorem claim_C10_witness :
    diskFind [diskFixture, diskB] = none ∧
    instanceFind [instRunning, instStopped] = none ∧
    DiskRpc.create "f1" "data" ∈ (reconcileDisk diskParamsFixture diskEnvTwo).2 ∧
    InstanceRpc.create "f1" "srv" ∈
      (reconcileInstance (instParams InstanceState.present)
        (instEnv [instRunning, instStopped])).2 := by
  have h := claim_C10 [diskFixture, diskB] [instRunning, instStopped]
    (by decide) (by decide) diskParamsFixture diskEnvTwo rfl rfl
    (instParams InstanceState.present) (instEnv [instRunning, instStopped]) rfl rfl
  exact ⟨h.1, h.2.2.1, h.2.2.2.2.1, h.2.2.2.2.2⟩
